import Mathlib

/-!
Shallow embedding of `src/render/bindings/metal_bindings.h`: two C enums
assigning fixed integer binding indices for the Metal vertex and fragment
shader resources, together with theorems about their values.
-/

namespace MetalBindings

/-- The input locations for the Metal vertex shaders
(enum `VertexInputIndex` in `metal_bindings.h`). -/
inductive VertexInputIndex where
  /-- The transformation matrix -/
  | VertexInputIndexMatrix
  /-- The vertices to render -/
  | VertexInputIndexVertices
  /-- The texture transformation matrix -/
  | VertexTextureMatrix
  deriving DecidableEq, Fintype, Repr

/-- The input locations for the Metal fragment shaders
(enum `FragmentInputIndex` in `metal_bindings.h`). -/
inductive FragmentInputIndex where
  /-- The texture to render -/
  | FragmentIndexTexture
  /-- The eraser texture to render -/
  | FragmentIndexEraseTexture
  /-- The clip mask texture to apply to the rendering -/
  | FragmentIndexClipMaskTexture
  deriving DecidableEq, Fintype, Repr

/-- The integer value each `VertexInputIndex` enumerator is assigned in the
header (`= 0`, `= 1`, `= 2`). -/
def VertexInputIndex.val : VertexInputIndex → Nat
  | .VertexInputIndexMatrix   => 0
  | .VertexInputIndexVertices => 1
  | .VertexTextureMatrix      => 2

/-- The integer value each `FragmentInputIndex` enumerator is assigned in the
header (`= 0`, `= 1`, `= 2`). -/
def FragmentInputIndex.val : FragmentInputIndex → Nat
  | .FragmentIndexTexture         => 0
  | .FragmentIndexEraseTexture    => 1
  | .FragmentIndexClipMaskTexture => 2

/-- The members of `VertexInputIndex` in declaration order. -/
def vertexMembers : List VertexInputIndex :=
  [.VertexInputIndexMatrix, .VertexInputIndexVertices, .VertexTextureMatrix]

/-- The members of `FragmentInputIndex` in declaration order. -/
def fragmentMembers : List FragmentInputIndex :=
  [.FragmentIndexTexture, .FragmentIndexEraseTexture, .FragmentIndexClipMaskTexture]

/-- The source-level identifier of each `VertexInputIndex` enumerator. -/
def VertexInputIndex.ident : VertexInputIndex → String
  | .VertexInputIndexMatrix   => "VertexInputIndexMatrix"
  | .VertexInputIndexVertices => "VertexInputIndexVertices"
  | .VertexTextureMatrix      => "VertexTextureMatrix"

/-- The source-level identifier of each `FragmentInputIndex` enumerator. -/
def FragmentInputIndex.ident : FragmentInputIndex → String
  | .FragmentIndexTexture         => "FragmentIndexTexture"
  | .FragmentIndexEraseTexture    => "FragmentIndexEraseTexture"
  | .FragmentIndexClipMaskTexture => "FragmentIndexClipMaskTexture"

/-- The vertex-stage binding table as (identifier, value) pairs, in
declaration order. -/
def vertexBindingTable : List (String × Nat) :=
  vertexMembers.map (fun m => (m.ident, m.val))

/-- The fragment-stage binding table as (identifier, value) pairs, in
declaration order. -/
def fragmentBindingTable : List (String × Nat) :=
  fragmentMembers.map (fun m => (m.ident, m.val))

/-- Resolving a vertex-stage constant by its identifier: a pure lookup in the
binding table, returning `none` only for identifiers the header never
declares. -/
def lookupVertexBinding (s : String) : Option Nat :=
  (vertexBindingTable.find? (fun p => p.1 == s)).map Prod.snd

/-- Resolving a fragment-stage constant by its identifier: a pure lookup in
the binding table, returning `none` only for identifiers the header never
declares. -/
def lookupFragmentBinding (s : String) : Option Nat :=
  (fragmentBindingTable.find? (fun p => p.1 == s)).map Prod.snd

/-- The inverse of `VertexInputIndex.val`, recovered from the declaration
list: the first member carrying a given integer value, if any. -/
def vertexOfVal (n : Nat) : Option VertexInputIndex :=
  vertexMembers.find? (fun m => m.val == n)

/-- The inverse of `FragmentInputIndex.val`, recovered from the declaration
list: the first member carrying a given integer value, if any. -/
def fragmentOfVal (n : Nat) : Option FragmentInputIndex :=
  fragmentMembers.find? (fun m => m.val == n)

/-- The pipeline stage whose binding namespace a slot number lives in. -/
inductive ShaderStage where
  | vertex
  | fragment
  deriving DecidableEq, Repr

/-- A fully qualified resource slot: a binding index together with the
pipeline stage it binds into. Two slots alias exactly when they are equal. -/
structure ResourceSlot where
  stage : ShaderStage
  slot  : Nat
  deriving DecidableEq, Repr

/-- The resource slot named by a vertex-stage constant. -/
def VertexInputIndex.resourceSlot (m : VertexInputIndex) : ResourceSlot :=
  ⟨.vertex, m.val⟩

/-- The resource slot named by a fragment-stage constant. -/
def FragmentInputIndex.resourceSlot (m : FragmentInputIndex) : ResourceSlot :=
  ⟨.fragment, m.val⟩

/-- C1: the three vertex-stage binding constants have exactly the integer
values of the spec's interface table: `VertexInputIndexMatrix = 0`,
`VertexInputIndexVertices = 1`, `VertexTextureMatrix = 2`. -/
theorem vertex_binding_values :
    VertexInputIndex.VertexInputIndexMatrix.val = 0 ∧
    VertexInputIndex.VertexInputIndexVertices.val = 1 ∧
    VertexInputIndex.VertexTextureMatrix.val = 2 := by
  decide

/-- C2: the three fragment-stage binding constants have exactly the integer
values of the spec's interface table: `FragmentIndexTexture = 0`,
`FragmentIndexEraseTexture = 1`, `FragmentIndexClipMaskTexture = 2`. -/
theorem fragment_binding_values :
    FragmentInputIndex.FragmentIndexTexture.val = 0 ∧
    FragmentInputIndex.FragmentIndexEraseTexture.val = 1 ∧
    FragmentInputIndex.FragmentIndexClipMaskTexture.val = 2 := by
  decide

/-- C3: each enumeration's declaration list enumerates every member exactly
once, and its assigned values are duplicate-free and form exactly the
contiguous range `[0, count-1]` with `count = 3`. -/
theorem binding_values_contiguous :
    (∀ m : VertexInputIndex, m ∈ vertexMembers) ∧
    vertexMembers.Nodup ∧
    vertexMembers.length = 3 ∧
    (vertexMembers.map VertexInputIndex.val).Nodup ∧
    (vertexMembers.map VertexInputIndex.val).Perm (List.range 3) ∧
    (∀ m : FragmentInputIndex, m ∈ fragmentMembers) ∧
    fragmentMembers.Nodup ∧
    fragmentMembers.length = 3 ∧
    (fragmentMembers.map FragmentInputIndex.val).Nodup ∧
    (fragmentMembers.map FragmentInputIndex.val).Perm (List.range 3) := by
  decide

/-- C4: the vertex and fragment namespaces are independent: the resource
slot of a vertex-stage constant never equals the resource slot of a
fragment-stage constant, even when the underlying integers coincide, as they
do for `VertexInputIndexMatrix` and `FragmentIndexTexture` (both 0). -/
theorem namespaces_do_not_alias :
    VertexInputIndex.VertexInputIndexMatrix.val =
      FragmentInputIndex.FragmentIndexTexture.val ∧
    (∀ (v : VertexInputIndex) (f : FragmentInputIndex),
      v.resourceSlot ≠ f.resourceSlot) := by
  decide

/-- C5: every lookup of a declared constant is total and effect-free: for
each member of either enumeration, resolving its identifier in the binding
table yields `some` of its value, never an error case. -/
theorem lookups_never_fail :
    (∀ m : VertexInputIndex, lookupVertexBinding m.ident = some m.val) ∧
    (∀ m : FragmentInputIndex, lookupFragmentBinding m.ident = some m.val) := by
  decide

/-- C6: every one of the six constants is a small non-negative integer: each
value `v` satisfies `v ≤ 2`, hence fits in any unsigned representation of at
least 2 bits (`v < 2 ^ 2`). -/
theorem binding_values_small :
    (∀ m : VertexInputIndex, m.val ≤ 2 ∧ m.val < 2 ^ 2) ∧
    (∀ m : FragmentInputIndex, m.val ≤ 2 ∧ m.val < 2 ^ 2) := by
  decide

/-- C7: the constants are immutable and deterministic: any two evaluations
of the binding-value mapping agree on every constant, there being no
operation that changes a binding value. -/
theorem binding_values_deterministic :
    (∀ (eval1 eval2 : VertexInputIndex → Nat),
      eval1 = VertexInputIndex.val → eval2 = VertexInputIndex.val →
      ∀ m, eval1 m = eval2 m) ∧
    (∀ (eval1 eval2 : FragmentInputIndex → Nat),
      eval1 = FragmentInputIndex.val → eval2 = FragmentInputIndex.val →
      ∀ m, eval1 m = eval2 m) := by
  constructor
  · intro eval1 eval2 h1 h2 m
    rw [h1, h2]
  · intro eval1 eval2 h1 h2 m
    rw [h1, h2]

/-- Witness for C7: the determinism theorem applied at two concrete
evaluations of the concrete constant `VertexInputIndexMatrix`. -/
theorem binding_values_deterministic_witness :
    VertexInputIndex.val VertexInputIndex.VertexInputIndexMatrix =
      VertexInputIndex.val VertexInputIndex.VertexInputIndexMatrix :=
  binding_values_deterministic.1 VertexInputIndex.val VertexInputIndex.val
    rfl rfl VertexInputIndex.VertexInputIndexMatrix

/-- C8: within each enumeration the values strictly increase in declaration
order, so declaration order and numeric order coincide. -/
theorem binding_values_increasing :
    List.Pairwise (· < ·) (vertexMembers.map VertexInputIndex.val) ∧
    List.Pairwise (· < ·) (fragmentMembers.map FragmentInputIndex.val) ∧
    VertexInputIndex.VertexInputIndexMatrix.val <
      VertexInputIndex.VertexInputIndexVertices.val ∧
    VertexInputIndex.VertexInputIndexVertices.val <
      VertexInputIndex.VertexTextureMatrix.val ∧
    FragmentInputIndex.FragmentIndexTexture.val <
      FragmentInputIndex.FragmentIndexEraseTexture.val ∧
    FragmentInputIndex.FragmentIndexEraseTexture.val <
      FragmentInputIndex.FragmentIndexClipMaskTexture.val := by
  decide

/-- C9: each enumeration's name-to-value mapping is injective and round-trips
through the inverse mapping: converting a member to its value and back yields
the member again. -/
theorem binding_values_roundtrip :
    Function.Injective VertexInputIndex.val ∧
    Function.Injective FragmentInputIndex.val ∧
    (∀ m : VertexInputIndex, vertexOfVal m.val = some m) ∧
    (∀ m : FragmentInputIndex, fragmentOfVal m.val = some m) := by
  refine ⟨?_, ?_, ?_, ?_⟩ <;> decide

/-- C10: the two enumerations carry identical value sets (both exactly
`{0, 1, 2}`), so a bare integer binding index never determines the pipeline
stage: every vertex-stage value is also carried by some fragment-stage
constant naming a different resource slot. -/
theorem value_sets_identical :
    (vertexMembers.map VertexInputIndex.val).Perm
      (fragmentMembers.map FragmentInputIndex.val) ∧
    (vertexMembers.map VertexInputIndex.val).Perm (List.range 3) ∧
    (∀ v : VertexInputIndex, ∃ f : FragmentInputIndex,
      f.val = v.val ∧ v.resourceSlot ≠ f.resourceSlot) := by
  decide

end MetalBindings
